import Mathlib

/-!
Verification of the local evaluation core.

Shallow embedding of the deterministic scoring engine
(`src/deepeval_utils/local_metrics.py`), the trace builder
(`src/deepeval/evaluate_tool_calling.py`) and the workflow state machine
(`src/langraph/orchestrator.py`), together with proofs of the spec's
testable properties.
-/

/-! ## Data model of `local_metrics.py` -/

/-- A tool call as the scorers see it: identity is by `name`, parameters are
informational only (never compared). Parameter values are JSON-shaped; since
no code path inspects them, they are modelled as string pairs. -/
structure ToolCall where
  name : String
  parameters : List (String × String)
deriving Repr, DecidableEq

/-- Result record of a scorer: a score (the code only ever produces the exact
floats `0.0` and `1.0`, modelled as the exact rationals `0` and `1`) plus a
human-readable reason. -/
structure ToolSelectionScore where
  score : ℚ
  reason : String
deriving Repr, DecidableEq

/-- Decidable equality for `Except`, so that concrete scorer outcomes can
be settled by `decide`. -/
instance instDecEqExcept {ε α : Type} [DecidableEq ε] [DecidableEq α] :
    DecidableEq (Except ε α)
  | Except.error a, Except.error b =>
    if h : a = b then isTrue (congrArg Except.error h)
    else isFalse (fun hc => h (Except.error.inj hc))
  | Except.error _, Except.ok _ => isFalse (fun hc => Except.noConfusion hc)
  | Except.ok _, Except.error _ => isFalse (fun hc => Except.noConfusion hc)
  | Except.ok a, Except.ok b =>
    if h : a = b then isTrue (congrArg Except.ok h)
    else isFalse (fun hc => h (Except.ok.inj hc))

/-- The configuration of `LocalToolCorrectnessMetric` that
`_compute_selection_score` reads from `self`: the `should_exact_match` flag
and the optional `expected_tools` attribute (`hasattr` is modelled by
`Option.isSome`). -/
structure LocalToolCorrectnessMetric where
  should_exact_match : Bool
  expected_tools : Option (List ToolCall)
deriving Repr, DecidableEq

/-- Python truthiness test `not available_tools`: true when the catalogue is
`None` or the empty list. -/
def catalogue_missing : Option (List ToolCall) → Bool
  | none => true
  | some l => l.isEmpty

/-- Python `sorted({...})` applied to a set of strings: deduplicate
(`List.toFinset`) and sort ascending. -/
def sortedSet (l : List String) : List String :=
  l.toFinset.sort (· ≤ ·)

/-- The reason string naming the unsupported tools, comma-joined. -/
def unsupported_reason (u : List String) : String :=
  "Agent invoked unsupported tools: " ++ String.intercalate ", " u ++ "."

/-- The reason string returned when no catalogue is supplied. -/
def no_catalogue_reason : String :=
  "No available tools catalogue provided; assuming selection is valid."

/-- The reason string combining the mismatch details, semicolon-joined. -/
def mismatch_reason (details : List String) : String :=
  "Tool selection mismatch: " ++ String.intercalate "; " details ++ "."

/-- The exact-match block of `_compute_selection_score`
(`src/deepeval_utils/local_metrics.py` lines 63-76): `missing` is the
sorted set difference `expected_names − called_names`, `extra` is the
sorted set difference `called_names − expected_names`; either non-empty
yields 0.0 with the mismatch reason, otherwise the final 1.0 return of the
function applies. -/
def exact_match_check (expected_tools tools_called : List ToolCall) :
    ToolSelectionScore :=
  let expected_names := expected_tools.map ToolCall.name
  let called_names := tools_called.map ToolCall.name
  let missing :=
    sortedSet (expected_names.filter (fun n => decide (n ∉ called_names)))
  let extra :=
    sortedSet (called_names.filter (fun n => decide (n ∉ expected_names)))
  if missing ≠ [] ∨ extra ≠ [] then
    let details :=
      (if missing ≠ [] then
        ["missing " ++ String.intercalate ", " missing] else []) ++
      (if extra ≠ [] then
        ["extra " ++ String.intercalate ", " extra] else [])
    ⟨0, mismatch_reason details⟩
  else
    ⟨1, "Tool selection matches expectation."⟩

/-- Embeds `LocalToolCorrectnessMetric._compute_selection_score`, translated
branch for branch from `src/deepeval_utils/local_metrics.py` lines 40-81. -/
def _compute_selection_score (self : LocalToolCorrectnessMetric)
    (tools_called : List ToolCall)
    (available_tools : Option (List ToolCall)) : ToolSelectionScore :=
  if catalogue_missing available_tools then
    ⟨1, no_catalogue_reason⟩
  else
    let available_names := (available_tools.getD []).map ToolCall.name
    let called_names := tools_called.map ToolCall.name
    let unknown_tools :=
      sortedSet (called_names.filter (fun n => decide (n ∉ available_names)))
    if unknown_tools ≠ [] then
      ⟨0, unsupported_reason unknown_tools⟩
    else
      match self.should_exact_match, self.expected_tools with
      | true, some expected_tools => exact_match_check expected_tools tools_called
      | _, _ =>
        ⟨1, "Tool selection matches expectation."⟩

/-! ## Step-efficiency scorer -/

/-- The `StepExpectations` dataclass: the minimal expected tool-name sequence. -/
structure StepExpectations where
  expected_tools : List String
deriving Repr, DecidableEq

/-- Configuration of `LocalStepEfficiencyMetric` used by `_score_trace`. -/
structure LocalStepEfficiencyMetric where
  expectations : StepExpectations
deriving Repr, DecidableEq

/-- A child node of the trace dict built by `build_trace`: its `name` is
`call.get("name")`, hence optional; `output` is the looked-up tool result
(possibly `None`). -/
structure TraceChild where
  name : Option String
  type : String
  inputParameters : List (String × String)
  output : Option String
deriving Repr, DecidableEq

/-- The root trace dict built by `build_trace`: `input` holds the prompt
(the nested `{"input": prompt}` mapping carries exactly the prompt) and
`output` holds `agent_output.get("response", "")`. -/
structure Trace where
  name : String
  type : String
  input : String
  output : String
  children : List TraceChild
deriving Repr, DecidableEq

/-- Embeds `LocalStepEfficiencyMetric._score_trace`, translated from
`src/deepeval_utils/local_metrics.py` lines 114-138. Python compares the
observed list of optional names against the expected list of plain names
elementwise; `None` never equals a string, which the embedding renders as
comparison against `expected.map some`. The f-string for the extra detail
comma-joins the raw observed names and is evaluated exactly when `extra`
is non-empty; a `None` entry there makes the Python join raise a
`TypeError`, modelled as `Except.error` (a `none` in the observed sequence
always lands in `extra`, since it never equals an expected string).
Otherwise every entry of `extra` is a string, extracted by
`List.filterMap id`, and the method returns a score. -/
def _score_trace (self : LocalStepEfficiencyMetric) (trace : Trace) :
    Except String ToolSelectionScore :=
  let tool_sequence : List (Option String) := trace.children.map TraceChild.name
  let expected := self.expectations.expected_tools
  if tool_sequence = expected.map some then
    Except.ok ⟨1, "Execution matched expected minimal tool sequence."⟩
  else
    let missing := expected.filter (fun n => decide (some n ∉ tool_sequence))
    let extra := tool_sequence.filter (fun n => decide (n ∉ expected.map some))
    if none ∈ extra then
      Except.error
        "TypeError: sequence item: expected str instance, NoneType found"
    else
      let details :=
        (if missing ≠ [] then
          ["missing " ++ String.intercalate ", " missing] else []) ++
        (if extra ≠ [] then
          ["extra " ++ String.intercalate ", " (extra.filterMap id)] else [])
      let details :=
        if details = [] ∧ tool_sequence ≠ expected.map some then
          details ++ ["tool order differed from expectation"]
        else details
      Except.ok ⟨0, "Trace deviated from expected sequence: " ++
          String.intercalate "; " details ++ "."⟩

/-! ## Trace builder of `evaluate_tool_calling.py` -/

/-- A raw tool call from the agent's JSON output: `call.get("name")` may be
absent (`none`) or the empty string; parameters are informational. -/
structure RawToolCall where
  name : Option String
  parameters : List (String × String)
deriving Repr, DecidableEq

/-- An entry of `metadata["toolResults"]`: `result.get("toolName")` and
`result.get("result")`, each possibly absent. -/
structure RawToolResult where
  toolName : Option String
  result : Option String
deriving Repr, DecidableEq

/-- The parsed agent output consumed by `build_trace` and `main`. -/
structure AgentOutput where
  response : Option String
  toolCalls : List RawToolCall
  toolResults : List RawToolResult
deriving Repr, DecidableEq

/-- The dict `tool_results_by_name` of `build_trace`
(`src/deepeval/evaluate_tool_calling.py` lines 139-142), modelled as the
lookup function of the dictionary: each assignment
`d[result.toolName] = result.result` overwrites the previous binding of
that key, and `get` on an absent key yields `none`. -/
def tool_results_by_name (results : List RawToolResult) :
    Option String → Option (Option String) :=
  results.foldl
    (fun d r => fun k => if k = r.toolName then some r.result else d k)
    (fun _ => none)

/-- Embeds `build_trace` from `src/deepeval/evaluate_tool_calling.py` lines
130-155: the root records the prompt and the response (default `""`), and
one child per entry of `toolCalls`, in order, with `output` resolved by
`tool_results_by_name.get(call.get("name"))`. -/
def build_trace (prompt : String) (agent_output : AgentOutput) : Trace :=
  let dict := tool_results_by_name agent_output.toolResults
  { name := "agentic_service"
    type := "agent"
    input := prompt
    output := agent_output.response.getD ""
    children := agent_output.toolCalls.map (fun call =>
      { name := call.name
        type := "tool"
        inputParameters := call.parameters
        output := (dict call.name).join }) }

/-- Python truthiness of `call.get("name", "")` used by the filter in
`main`: false exactly for an absent name or the empty string. -/
def truthy_name : Option String → Bool
  | none => false
  | some s => !(s == "")

/-- The list comprehension in `main`
(`src/deepeval/evaluate_tool_calling.py` lines 174-178) that builds
`tools_called` for the Tool-Selection Scorer: invocations with a missing or
empty name are filtered out. -/
def tools_called_of (agent_output : AgentOutput) : List ToolCall :=
  (agent_output.toolCalls.filter (fun call => truthy_name call.name)).map
    (fun call => ⟨call.name.getD "", call.parameters⟩)

/-- The helper `lastResultFor results key` names the `result` field of the
last entry of `results` whose `toolName` is `key`, or `none` when no entry
bears that name. -/
def lastResultFor (results : List RawToolResult) (key : Option String) :
    Option String :=
  match (results.filter (fun r => r.toolName == key)).getLast? with
  | none => none
  | some r => r.result

/-! ## Workflow state machine of `orchestrator.py` -/

/-- A planned tool call appended by a stage:
`{"tool": name, "parameters": parameters}`. -/
structure PlannedTool where
  tool : String
  parameters : List (String × String)
deriving Repr, DecidableEq

/-- The `PipelineState` dataclass of `src/langraph/orchestrator.py`. -/
structure PipelineState where
  prompt : String
  artifacts : List String
  tools_planned : List PlannedTool
  context : List (String × String)
  step : Nat
deriving Repr, DecidableEq

/-- Embeds `PipelineState.append_tool`. -/
def append_tool (state : PipelineState) (name : String)
    (parameters : List (String × String)) : PipelineState :=
  { state with tools_planned := state.tools_planned ++ [⟨name, parameters⟩] }

/-- Embeds `PipelineState.add_artifact`. -/
def add_artifact (state : PipelineState) (description : String) :
    PipelineState :=
  { state with artifacts := state.artifacts ++ [description] }

/-- Bump the `step` counter (`state.step += 1`). -/
def bump_step (state : PipelineState) : PipelineState :=
  { state with step := state.step + 1 }

/-- Stage `dataset`. `Path("./tmp_pipeline_raw.txt").as_posix()` is
`"tmp_pipeline_raw.txt"` (pathlib drops the leading `./`), likewise for all
later paths. -/
def _dataset_stage (state : PipelineState) : PipelineState :=
  bump_step (add_artifact
    (append_tool state "filesystem"
      [("action", "write"), ("path", "tmp_pipeline_raw.txt"),
       ("content", "dataset=12,7,23")])
    "raw dataset written to tmp_pipeline_raw.txt")

/-- Stage `metadata`. -/
def _metadata_stage (state : PipelineState) : PipelineState :=
  bump_step (add_artifact
    (append_tool state "filesystem"
      [("action", "write"), ("path", "tmp_pipeline_metadata.json"),
       ("content", "\x7b\"source\": \"synthetic\", \"fields\": 3\x7d")])
    "metadata stored at tmp_pipeline_metadata.json")

/-- Stage `verify_raw`. -/
def _verify_raw_stage (state : PipelineState) : PipelineState :=
  bump_step (add_artifact
    (append_tool state "filesystem"
      [("action", "read"), ("path", "tmp_pipeline_raw.txt")])
    "raw dataset verified from tmp_pipeline_raw.txt")

/-- Stage `verify_metadata`. -/
def _verify_metadata_stage (state : PipelineState) : PipelineState :=
  bump_step (add_artifact
    (append_tool state "filesystem"
      [("action", "read"), ("path", "tmp_pipeline_metadata.json")])
    "metadata verified from tmp_pipeline_metadata.json")

/-- Stage `summary`. -/
def _summary_stage (state : PipelineState) : PipelineState :=
  bump_step (add_artifact
    (append_tool state "filesystem"
      [("action", "write"), ("path", "tmp_pipeline_summary.txt"),
       ("content", "Summary: collected 3 synthetic observations.")])
    "summary stored at tmp_pipeline_summary.txt")

/-- Stage `rag_query` (`_rag_stage` in the source). -/
def _rag_stage (state : PipelineState) : PipelineState :=
  bump_step (add_artifact
    (append_tool state "rag"
      [("query", "evaluation playbooks and best practices")])
    "rag query executed for evaluation playbooks")

/-- Stage `rag_capture`. -/
def _rag_capture_stage (state : PipelineState) : PipelineState :=
  bump_step (add_artifact
    (append_tool state "filesystem"
      [("action", "write"), ("path", "tmp_pipeline_rag.txt"),
       ("content",
        "RAG insights: Follow the evaluation playbook to validate every artifact.")])
    "rag insights captured at tmp_pipeline_rag.txt")

/-- Stage `rag_verify`. -/
def _rag_verify_stage (state : PipelineState) : PipelineState :=
  bump_step (add_artifact
    (append_tool state "filesystem"
      [("action", "read"), ("path", "tmp_pipeline_rag.txt")])
    "rag insights verified from tmp_pipeline_rag.txt")

/-- Stage `report`. -/
def _report_stage (state : PipelineState) : PipelineState :=
  bump_step (add_artifact
    (append_tool state "filesystem"
      [("action", "write"), ("path", "tmp_pipeline_report.md"),
       ("content",
        "# Evaluation Report\n\n- Raw data stored\n- Metadata verified\n- RAG insights appended")])
    "report drafted at tmp_pipeline_report.md")

/-- Stage `final`. -/
def _final_stage (state : PipelineState) : PipelineState :=
  bump_step (add_artifact
    (append_tool state "filesystem" [("action", "list"), ("path", ".")])
    "workspace inventory captured")

/-- The ten stages in the order fixed by `_build_graph`'s linear chain
`dataset → metadata → verify_raw → verify_metadata → summary → rag_query →
rag_capture → rag_verify → report → final`. -/
def pipeline_stages : List (PipelineState → PipelineState) :=
  [_dataset_stage, _metadata_stage, _verify_raw_stage, _verify_metadata_stage,
   _summary_stage, _rag_stage, _rag_capture_stage, _rag_verify_stage,
   _report_stage, _final_stage]

/-- Invoking the compiled graph: the stages run strictly in chain order,
each receiving the previous stage's state. -/
def invoke_graph (state : PipelineState) : PipelineState :=
  pipeline_stages.foldl (fun s f => f s) state

/-- The payload returned by `run_langraph_pipeline`. -/
structure PipelineResult where
  prompt : String
  artifacts : List String
  plan : List PlannedTool
deriving Repr, DecidableEq

/-- The fresh state created per run of `run_langraph_pipeline`. -/
def initial_state (prompt : String) (context : List (String × String)) :
    PipelineState :=
  { prompt := prompt, artifacts := [], tools_planned := [], context := context,
    step := 0 }

/-- Embeds `run_langraph_pipeline` from `src/langraph/orchestrator.py` lines
208-235: build a fresh state, invoke the (process-wide, immutable) compiled
graph, and package prompt, artifacts and plan. -/
def run_langraph_pipeline (prompt : String)
    (context : List (String × String)) : PipelineResult :=
  let result := invoke_graph (initial_state prompt context)
  { prompt := prompt, artifacts := result.artifacts,
    plan := result.tools_planned }

/-- The transition contract of a workflow stage: it appends exactly one
planned tool call and exactly one artifact, increments `step` by one, and
leaves `prompt` (and, by the append shape, every prior entry of
`artifacts` and `tools_planned`) unchanged. -/
def StageContract (f : PipelineState → PipelineState) : Prop :=
  ∀ s : PipelineState, ∃ tc a,
    (f s).tools_planned = s.tools_planned ++ [tc] ∧
    (f s).artifacts = s.artifacts ++ [a] ∧
    (f s).step = s.step + 1 ∧
    (f s).prompt = s.prompt

/-- The artifact descriptions produced by a full run, in stage order. -/
def reference_artifacts : List String :=
  ["raw dataset written to tmp_pipeline_raw.txt",
   "metadata stored at tmp_pipeline_metadata.json",
   "raw dataset verified from tmp_pipeline_raw.txt",
   "metadata verified from tmp_pipeline_metadata.json",
   "summary stored at tmp_pipeline_summary.txt",
   "rag query executed for evaluation playbooks",
   "rag insights captured at tmp_pipeline_rag.txt",
   "rag insights verified from tmp_pipeline_rag.txt",
   "report drafted at tmp_pipeline_report.md",
   "workspace inventory captured"]

/-- The planned tool calls produced by a full run, in stage order. -/
def reference_plan : List PlannedTool :=
  [⟨"filesystem", [("action", "write"), ("path", "tmp_pipeline_raw.txt"),
     ("content", "dataset=12,7,23")]⟩,
   ⟨"filesystem", [("action", "write"), ("path", "tmp_pipeline_metadata.json"),
     ("content", "\x7b\"source\": \"synthetic\", \"fields\": 3\x7d")]⟩,
   ⟨"filesystem", [("action", "read"), ("path", "tmp_pipeline_raw.txt")]⟩,
   ⟨"filesystem", [("action", "read"), ("path", "tmp_pipeline_metadata.json")]⟩,
   ⟨"filesystem", [("action", "write"), ("path", "tmp_pipeline_summary.txt"),
     ("content", "Summary: collected 3 synthetic observations.")]⟩,
   ⟨"rag", [("query", "evaluation playbooks and best practices")]⟩,
   ⟨"filesystem", [("action", "write"), ("path", "tmp_pipeline_rag.txt"),
     ("content",
      "RAG insights: Follow the evaluation playbook to validate every artifact.")]⟩,
   ⟨"filesystem", [("action", "read"), ("path", "tmp_pipeline_rag.txt")]⟩,
   ⟨"filesystem", [("action", "write"), ("path", "tmp_pipeline_report.md"),
     ("content",
      "# Evaluation Report\n\n- Raw data stored\n- Metadata verified\n- RAG insights appended")]⟩,
   ⟨"filesystem", [("action", "list"), ("path", ".")]⟩]

/-! ## Concrete fixtures used by counterexamples and witnesses -/

/-- A trace whose single child carries no name (`call.get("name")` was
`None`). -/
def traceC1none : Trace :=
  ⟨"agentic_service", "agent", "p", "", [⟨none, "tool", [], none⟩]⟩

/-- Metric expecting the sequence `[math]`. -/
def metricC1none : LocalStepEfficiencyMetric := ⟨⟨["math"]⟩⟩

/-- Trace of the spec's Example 3: observed `[rag, filesystem]`. -/
def traceC1ex3 : Trace :=
  ⟨"agentic_service", "agent", "p", "",
   [⟨some "rag", "tool", [], none⟩, ⟨some "filesystem", "tool", [], none⟩]⟩

/-- Metric of the spec's Example 3: expected `[filesystem, rag]`. -/
def metricC1ex3 : LocalStepEfficiencyMetric := ⟨⟨["filesystem", "rag"]⟩⟩

/-- Trace of the spec's Example 4: two `filesystem` children. -/
def traceC5 : Trace :=
  ⟨"agentic_service", "agent", "p", "",
   [⟨some "filesystem", "tool", [], none⟩,
    ⟨some "filesystem", "tool", [], none⟩]⟩

/-- Metric of the spec's Example 4: expected sequence `[filesystem]`. -/
def metricC5 : LocalStepEfficiencyMetric := ⟨⟨["filesystem"]⟩⟩

/-- Metric in exact-match mode expecting only the tool `web`. -/
def metricC2 : LocalToolCorrectnessMetric := ⟨true, some [⟨"web", []⟩]⟩

/-- A single call to `web`. -/
def calledC2 : List ToolCall := [⟨"web", []⟩]

/-- A non-empty catalogue that knows only `math`. -/
def availC2 : List ToolCall := [⟨"math", []⟩]

/-- Agent output containing an empty-named tool invocation before a `math`
invocation, with no tool results. -/
def outC6 : AgentOutput :=
  ⟨some "resp", [⟨some "", [("x", "y")]⟩, ⟨some "math", []⟩], []⟩

/-! ## Helper lemmas -/

theorem mem_sortedSet {n : String} {l : List String} :
    n ∈ sortedSet l ↔ n ∈ l := by
  simp [sortedSet, Finset.mem_sort, List.mem_toFinset]

theorem sortedSet_sorted (l : List String) :
    (sortedSet l).Sorted (· ≤ ·) :=
  Finset.sort_sorted _ _

theorem sortedSet_nodup (l : List String) : (sortedSet l).Nodup :=
  Finset.sort_nodup _ _

theorem sortedSet_eq_nil_iff {l : List String} :
    sortedSet l = [] ↔ l = [] := by
  constructor
  · intro h
    by_contra hl
    obtain ⟨x, hx⟩ := List.exists_mem_of_ne_nil l hl
    have hmem := mem_sortedSet.mpr hx
    rw [h] at hmem
    exact (List.not_mem_nil x) hmem
  · rintro rfl
    simp [sortedSet]

theorem tool_results_by_name_spec (results : List RawToolResult)
    (key : Option String) :
    tool_results_by_name results key =
      ((results.filter (fun r => r.toolName == key)).getLast?).map
        RawToolResult.result := by
  induction results using List.reverseRecOn with
  | nil => rfl
  | append_singleton rs r ih =>
    have hstep : tool_results_by_name (rs ++ [r]) key =
        if key = r.toolName then some r.result
        else tool_results_by_name rs key := by
      simp [tool_results_by_name, List.foldl_append]
    by_cases hk : key = r.toolName
    · have hfil : (rs ++ [r]).filter (fun x => x.toolName == key) =
          rs.filter (fun x => x.toolName == key) ++ [r] := by
        simp [List.filter_append, hk.symm]
      rw [hstep, if_pos hk, hfil, List.getLast?_concat]
      rfl
    · have hbeq : (r.toolName == key) = false := by
        simp only [beq_eq_false_iff_ne, Ne]
        exact fun h => hk h.symm
      have hfil : (rs ++ [r]).filter (fun x => x.toolName == key) =
          rs.filter (fun x => x.toolName == key) := by
        simp [List.filter_append, hbeq]
      rw [hstep, if_neg hk, hfil, ih]

/-! ## C1: step-efficiency score is 1.0 exactly on sequence equality -/

/-- Counterexample to C1 as stated: a trace with a nameless child has an
observed sequence different from the expected one, yet the scorer raises a
TypeError (the comma-join over `extra` hits the `None` entry), modelled as
`Except.error` — it does not return score 0.0. -/
theorem step_efficiency_nameless_counterexample :
    traceC1none.children.map TraceChild.name ≠
      metricC1none.expectations.expected_tools.map some ∧
    _score_trace metricC1none traceC1none =
      Except.error
        "TypeError: sequence item: expected str instance, NoneType found" := by
  decide

/-- C1 amended. For every expected tool-name sequence and every trace all
of whose direct children bear names, the Step-Efficiency Scorer returns a
score: 1.0 if and only if the list of the children's names, in order,
equals the expected sequence, and 0.0 for every non-identical observed
sequence (non-identical permutations included). A trace containing a
nameless child instead raises a TypeError before any score is returned. -/
theorem step_efficiency_score_iff_amended (m : LocalStepEfficiencyMetric)
    (t : Trace)
    (hnamed : none ∉ t.children.map TraceChild.name) :
    ∃ r : ToolSelectionScore,
      _score_trace m t = Except.ok r ∧
      (r.score = 1 ↔
        t.children.map TraceChild.name =
          m.expectations.expected_tools.map some) ∧
      (r.score = 0 ↔
        t.children.map TraceChild.name ≠
          m.expectations.expected_tools.map some) := by
  by_cases h :
      t.children.map TraceChild.name = m.expectations.expected_tools.map some
  · refine ⟨⟨1, "Execution matched expected minimal tool sequence."⟩, ?_, ?_, ?_⟩
    · simp [_score_trace, h]
    · simp [h]
    · norm_num [h]
  · have hnone : none ∉ (t.children.map TraceChild.name).filter
        (fun n => decide (n ∉ m.expectations.expected_tools.map some)) :=
      fun hmem => hnamed (List.mem_of_mem_filter hmem)
    have hok : ∃ reason, _score_trace m t = Except.ok ⟨0, reason⟩ := by
      simp only [_score_trace]
      rw [if_neg h, if_neg hnone]
      exact ⟨_, rfl⟩
    obtain ⟨reason, hr⟩ := hok
    refine ⟨⟨0, reason⟩, hr, ?_, ?_⟩
    · norm_num [h]
    · simp [h]

/-- Witness for C1 amended at the spec's Example 3: expected
`[filesystem, rag]`, observed `[rag, filesystem]` — all children named, a
score is returned, and it is 0.0 by the second equivalence. -/
theorem step_efficiency_score_iff_amended_witness :
    (none ∉ traceC1ex3.children.map TraceChild.name) ∧
    (∃ r : ToolSelectionScore,
      _score_trace metricC1ex3 traceC1ex3 = Except.ok r ∧
      (r.score = 1 ↔
        traceC1ex3.children.map TraceChild.name =
          metricC1ex3.expectations.expected_tools.map some) ∧
      (r.score = 0 ↔
        traceC1ex3.children.map TraceChild.name ≠
          metricC1ex3.expectations.expected_tools.map some)) :=
  ⟨by decide,
   step_efficiency_score_iff_amended metricC1ex3 traceC1ex3 (by decide)⟩

/-! ## C4: missing catalogue always scores 1.0 -/

/-- C4. If the catalogue of available tools is absent (`None`) or empty,
the Tool-Selection Scorer returns score 1.0 with the "assuming selection
is valid" reason, for every metric configuration and every called list. -/
theorem tool_selection_no_catalogue (m : LocalToolCorrectnessMetric)
    (tools_called : List ToolCall) (available_tools : Option (List ToolCall))
    (h : catalogue_missing available_tools = true) :
    _compute_selection_score m tools_called available_tools =
      ⟨1, no_catalogue_reason⟩ := by
  simp [_compute_selection_score, h]

/-- Witness for C4 at the concrete input `available_tools = none` with a
called tool and an expected-tools set supplied. -/
theorem tool_selection_no_catalogue_witness :
    catalogue_missing none = true ∧
    _compute_selection_score ⟨true, some [⟨"math", []⟩]⟩ [⟨"web", []⟩] none =
      ⟨1, no_catalogue_reason⟩ :=
  ⟨by decide,
   tool_selection_no_catalogue ⟨true, some [⟨"math", []⟩]⟩ [⟨"web", []⟩] none
     (by decide)⟩

/-! ## C5: duplicate call of the expected tool -/

/-- Counterexample to C5 as stated: at expected `[filesystem]` and observed
`[filesystem, filesystem]`, the membership-computed `extra` list is empty
(because `filesystem` is a member of the expected sequence), and the reason
is the order-mismatch message, not one reporting `filesystem` as extra. -/
theorem step_efficiency_duplicate_counterexample :
    ((traceC5.children.map TraceChild.name).filter
      (fun n => decide (n ∉ metricC5.expectations.expected_tools.map some)))
      = [] ∧
    _score_trace metricC5 traceC5 = Except.ok
      ⟨0, "Trace deviated from expected sequence: tool order differed from expectation."⟩ := by
  decide

/-- C5 amended. For expected `[filesystem]` and observed
`[filesystem, filesystem]`, the score is 0.0 and — since both the
membership-computed `extra` and `missing` lists are empty — the reason
attributes the deviation to tool order. -/
theorem step_efficiency_duplicate_amended :
    _score_trace metricC5 traceC5 = Except.ok
      ⟨0, "Trace deviated from expected sequence: tool order differed from expectation."⟩ ∧
    (metricC5.expectations.expected_tools.filter
      (fun n => decide (some n ∉ traceC5.children.map TraceChild.name))) = [] := by
  decide

/-! ## Reduction lemmas for the selection scorer -/

theorem catalogue_missing_some_false {avail : List ToolCall}
    (hne : avail ≠ []) : catalogue_missing (some avail) = false := by
  cases avail with
  | nil => exact absurd rfl hne
  | cons a l => rfl

theorem unknown_tools_nil_of_known {tools_called avail : List ToolCall}
    (hknown : ∀ t ∈ tools_called, t.name ∈ avail.map ToolCall.name) :
    sortedSet ((tools_called.map ToolCall.name).filter
      (fun n => decide (n ∉ avail.map ToolCall.name))) = [] := by
  rw [sortedSet_eq_nil_iff, List.filter_eq_nil_iff]
  intro a ha
  simp only [decide_eq_true_eq, Decidable.not_not]
  obtain ⟨t, ht, rfl⟩ := List.mem_map.mp ha
  exact hknown t ht

/-- When the catalogue is non-empty and every called name is known, the
selection score is decided by the exact-match configuration alone. -/
theorem selection_score_of_known (m : LocalToolCorrectnessMetric)
    (tools_called avail : List ToolCall) (hne : avail ≠ [])
    (hknown : ∀ t ∈ tools_called, t.name ∈ avail.map ToolCall.name) :
    _compute_selection_score m tools_called (some avail) =
      match m.should_exact_match, m.expected_tools with
      | true, some expected_tools => exact_match_check expected_tools tools_called
      | _, _ => ⟨1, "Tool selection matches expectation."⟩ := by
  unfold _compute_selection_score
  rw [catalogue_missing_some_false hne]
  simp only [Bool.false_eq_true, if_false, Option.getD_some]
  rw [if_neg (fun h => h (unknown_tools_nil_of_known hknown))]

theorem missing_nil_iff {expected tools_called : List ToolCall} :
    sortedSet ((expected.map ToolCall.name).filter
      (fun n => decide (n ∉ tools_called.map ToolCall.name))) = [] ↔
    ∀ n ∈ expected.map ToolCall.name, n ∈ tools_called.map ToolCall.name := by
  rw [sortedSet_eq_nil_iff, List.filter_eq_nil_iff]
  simp only [decide_eq_true_eq, Decidable.not_not]

/-- The exact-match block scores 1.0 exactly when the called and expected
name sets coincide, and 0.0 exactly otherwise. -/
theorem exact_match_check_score_iff (expected tools_called : List ToolCall) :
    ((exact_match_check expected tools_called).score = 1 ↔
      (tools_called.map ToolCall.name).toFinset =
        (expected.map ToolCall.name).toFinset)
    ∧ ((exact_match_check expected tools_called).score = 0 ↔
      (tools_called.map ToolCall.name).toFinset ≠
        (expected.map ToolCall.name).toFinset) := by
  have hset : ((tools_called.map ToolCall.name).toFinset =
      (expected.map ToolCall.name).toFinset) ↔
      ((∀ n ∈ expected.map ToolCall.name, n ∈ tools_called.map ToolCall.name) ∧
       (∀ n ∈ tools_called.map ToolCall.name, n ∈ expected.map ToolCall.name)) := by
    rw [Finset.ext_iff]
    constructor
    · intro h
      constructor
      · intro n hn
        exact List.mem_toFinset.mp ((h n).mpr (List.mem_toFinset.mpr hn))
      · intro n hn
        exact List.mem_toFinset.mp ((h n).mp (List.mem_toFinset.mpr hn))
    · intro ⟨h1, h2⟩ n
      rw [List.mem_toFinset, List.mem_toFinset]
      exact ⟨h2 n, h1 n⟩
  by_cases hc :
      sortedSet ((expected.map ToolCall.name).filter
        (fun n => decide (n ∉ tools_called.map ToolCall.name))) = [] ∧
      sortedSet ((tools_called.map ToolCall.name).filter
        (fun n => decide (n ∉ expected.map ToolCall.name))) = []
  · have heq : (tools_called.map ToolCall.name).toFinset =
        (expected.map ToolCall.name).toFinset :=
      hset.mpr ⟨missing_nil_iff.mp hc.1, missing_nil_iff.mp hc.2⟩
    have hone : exact_match_check expected tools_called =
        ⟨1, "Tool selection matches expectation."⟩ := by
      simp only [exact_match_check]
      rw [if_neg (by push_neg; exact hc)]
    rw [hone]
    constructor
    · simpa using heq
    · constructor
      · intro h
        exact absurd h (by norm_num)
      · intro h
        exact absurd heq h
  · have hne : (tools_called.map ToolCall.name).toFinset ≠
        (expected.map ToolCall.name).toFinset := by
      intro h
      obtain ⟨h1, h2⟩ := hset.mp h
      exact hc ⟨missing_nil_iff.mpr h1, missing_nil_iff.mpr h2⟩
    have hzero : (exact_match_check expected tools_called).score = 0 := by
      simp only [exact_match_check]
      rw [if_pos (by tauto)]
    constructor
    · constructor
      · intro h
        rw [hzero] at h
        exact absurd h (by norm_num)
      · intro h
        exact absurd h hne
    · constructor
      · intro _
        exact hne
      · intro _
        exact hzero

/-! ## C3: unknown called tools always score 0.0 -/

/-- Core of the unknown-tools branch, shared by several results below. -/
theorem selection_score_of_unknown (m : LocalToolCorrectnessMetric)
    (tools_called avail : List ToolCall)
    (hne : avail ≠ [])
    (hunk : ∃ t ∈ tools_called, t.name ∉ avail.map ToolCall.name) :
    ∃ u : List String,
      _compute_selection_score m tools_called (some avail) =
        ⟨0, unsupported_reason u⟩ ∧
      u.Sorted (· ≤ ·) ∧ u.Nodup ∧
      ∀ n : String, n ∈ u ↔
        (n ∈ tools_called.map ToolCall.name ∧
         n ∉ avail.map ToolCall.name) := by
  refine ⟨sortedSet ((tools_called.map ToolCall.name).filter
      (fun n => decide (n ∉ avail.map ToolCall.name))), ?_, sortedSet_sorted _,
    sortedSet_nodup _, ?_⟩
  · have hu : sortedSet ((tools_called.map ToolCall.name).filter
        (fun n => decide (n ∉ avail.map ToolCall.name))) ≠ [] := by
      rw [Ne, sortedSet_eq_nil_iff]
      intro hfil
      obtain ⟨t, ht, hname⟩ := hunk
      have hmem : t.name ∈ (tools_called.map ToolCall.name).filter
          (fun n => decide (n ∉ avail.map ToolCall.name)) := by
        rw [List.mem_filter]
        exact ⟨List.mem_map_of_mem _ ht, by simpa using hname⟩
      rw [hfil] at hmem
      exact List.not_mem_nil _ hmem
    unfold _compute_selection_score
    rw [catalogue_missing_some_false hne]
    simp only [Bool.false_eq_true, if_false, Option.getD_some]
    rw [if_pos hu]
  · intro n
    rw [mem_sortedSet, List.mem_filter]
    simp only [decide_eq_true_eq]

/-- C3. For every non-empty catalogue and every metric configuration, when
some called tool's name is absent from the catalogue the scorer returns
score 0.0 with the unsupported-tools reason built from a list `u` that is
sorted, deduplicated and holds exactly the unknown called names; this holds
regardless of the expected-tools set, so the unknown-tools check takes
priority over the exact-match comparison. -/
theorem tool_selection_unknown_tools (m : LocalToolCorrectnessMetric)
    (tools_called avail : List ToolCall)
    (hne : avail ≠ [])
    (hunk : ∃ t ∈ tools_called, t.name ∉ avail.map ToolCall.name) :
    ∃ u : List String,
      _compute_selection_score m tools_called (some avail) =
        ⟨0, unsupported_reason u⟩ ∧
      u.Sorted (· ≤ ·) ∧ u.Nodup ∧
      ∀ n : String, n ∈ u ↔
        (n ∈ tools_called.map ToolCall.name ∧
         n ∉ avail.map ToolCall.name) :=
  selection_score_of_unknown m tools_called avail hne hunk

/-- Witness for C3: the spec's Example 2 — catalogue
`[math, filesystem, rag]`, called `[math, web]` — scores 0.0 naming the
unknown tool. -/
theorem tool_selection_unknown_tools_witness :
    (([⟨"math", []⟩, ⟨"filesystem", []⟩, ⟨"rag", []⟩] : List ToolCall) ≠ []) ∧
    (∃ t ∈ ([⟨"math", []⟩, ⟨"web", []⟩] : List ToolCall),
      t.name ∉ ([⟨"math", []⟩, ⟨"filesystem", []⟩, ⟨"rag", []⟩] :
        List ToolCall).map ToolCall.name) ∧
    (∃ u : List String,
      _compute_selection_score ⟨false, none⟩ [⟨"math", []⟩, ⟨"web", []⟩]
        (some [⟨"math", []⟩, ⟨"filesystem", []⟩, ⟨"rag", []⟩]) =
        ⟨0, unsupported_reason u⟩ ∧
      u.Sorted (· ≤ ·) ∧ u.Nodup ∧
      ∀ n : String, n ∈ u ↔
        (n ∈ (([⟨"math", []⟩, ⟨"web", []⟩] :
          List ToolCall).map ToolCall.name) ∧
         n ∉ (([⟨"math", []⟩, ⟨"filesystem", []⟩, ⟨"rag", []⟩] :
          List ToolCall).map ToolCall.name))) :=
  ⟨by decide, by decide,
   tool_selection_unknown_tools ⟨false, none⟩ [⟨"math", []⟩, ⟨"web", []⟩]
     [⟨"math", []⟩, ⟨"filesystem", []⟩, ⟨"rag", []⟩] (by decide) (by decide)⟩

/-! ## C2: exact-match mode and set equality -/

/-- Counterexample to C2 as stated: catalogue `[math]`, called `[web]`,
expected `[web]`, exact-match on. The called name set equals the expected
name set, yet the score is 0.0, because the unknown-tools check fires
first (`web` is not in the catalogue). -/
theorem tool_selection_set_equal_counterexample :
    (calledC2.map ToolCall.name).toFinset =
      ((metricC2.expected_tools.getD []).map ToolCall.name).toFinset ∧
    metricC2.should_exact_match = true ∧
    availC2 ≠ [] ∧
    (_compute_selection_score metricC2 calledC2 (some availC2)).score = 0 := by
  refine ⟨rfl, rfl, by decide, ?_⟩
  obtain ⟨u, hu, -, -, -⟩ :=
    selection_score_of_unknown metricC2 calledC2 availC2 (by decide) (by decide)
  rw [hu]

/-- C2 amended. For every non-empty catalogue, with exact-match mode
enabled, an expected-tools set present, and — as the unknown-tools check
otherwise takes priority — every called tool's name known to the
catalogue: the score is 1.0 iff the set of called names equals the set of
expected names (order and duplicates are irrelevant, since sets are
compared), and 0.0 iff the sets differ; in particular empty `tools_called`
with non-empty expected names scores 0.0. -/
theorem tool_selection_exact_match_amended (m : LocalToolCorrectnessMetric)
    (tools_called avail expected : List ToolCall)
    (hm : m.should_exact_match = true)
    (he : m.expected_tools = some expected)
    (hne : avail ≠ [])
    (hknown : ∀ t ∈ tools_called, t.name ∈ avail.map ToolCall.name) :
    ((_compute_selection_score m tools_called (some avail)).score = 1 ↔
      (tools_called.map ToolCall.name).toFinset =
        (expected.map ToolCall.name).toFinset)
    ∧ ((_compute_selection_score m tools_called (some avail)).score = 0 ↔
      (tools_called.map ToolCall.name).toFinset ≠
        (expected.map ToolCall.name).toFinset) := by
  rw [selection_score_of_known m tools_called avail hne hknown, hm, he]
  exact exact_match_check_score_iff expected tools_called

/-- Witness for C2 amended: catalogue `[math, filesystem, rag]`, expected
`[math]`, called `[math, math]` (a duplicate call), exact-match on. -/
theorem tool_selection_exact_match_amended_witness :
    ((⟨true, some [⟨"math", []⟩]⟩ :
      LocalToolCorrectnessMetric).should_exact_match = true) ∧
    ((⟨true, some [⟨"math", []⟩]⟩ :
      LocalToolCorrectnessMetric).expected_tools = some [⟨"math", []⟩]) ∧
    (([⟨"math", []⟩, ⟨"filesystem", []⟩, ⟨"rag", []⟩] : List ToolCall) ≠ []) ∧
    (∀ t ∈ ([⟨"math", []⟩, ⟨"math", []⟩] : List ToolCall),
      t.name ∈ ([⟨"math", []⟩, ⟨"filesystem", []⟩, ⟨"rag", []⟩] :
        List ToolCall).map ToolCall.name) ∧
    (((_compute_selection_score ⟨true, some [⟨"math", []⟩]⟩
        [⟨"math", []⟩, ⟨"math", []⟩]
        (some [⟨"math", []⟩, ⟨"filesystem", []⟩, ⟨"rag", []⟩])).score = 1 ↔
      (([⟨"math", []⟩, ⟨"math", []⟩] :
        List ToolCall).map ToolCall.name).toFinset =
        (([⟨"math", []⟩] : List ToolCall).map ToolCall.name).toFinset)
    ∧ ((_compute_selection_score ⟨true, some [⟨"math", []⟩]⟩
        [⟨"math", []⟩, ⟨"math", []⟩]
        (some [⟨"math", []⟩, ⟨"filesystem", []⟩, ⟨"rag", []⟩])).score = 0 ↔
      (([⟨"math", []⟩, ⟨"math", []⟩] :
        List ToolCall).map ToolCall.name).toFinset ≠
        (([⟨"math", []⟩] : List ToolCall).map ToolCall.name).toFinset)) :=
  ⟨rfl, rfl, by decide, by decide,
   tool_selection_exact_match_amended ⟨true, some [⟨"math", []⟩]⟩
     [⟨"math", []⟩, ⟨"math", []⟩]
     [⟨"math", []⟩, ⟨"filesystem", []⟩, ⟨"rag", []⟩] [⟨"math", []⟩]
     rfl rfl (by decide) (by decide)⟩

/-! ## C6: invocations with missing or empty names -/

/-- Counterexample to C6 as stated: for an agent output whose first
reported invocation has an empty name, `tools_called` (the Tool-Selection
Scorer's input) drops it, but the trace judged by the Step-Efficiency
Scorer keeps a child for it — the observed sequence is
`["", "math"]`, and it even flips the efficiency verdict against the
expected sequence `[math]`. -/
theorem empty_name_counterexample :
    (tools_called_of outC6).map ToolCall.name = ["math"] ∧
    (build_trace "p" outC6).children.map TraceChild.name =
      [some "", some "math"] ∧
    _score_trace ⟨⟨["math"]⟩⟩ (build_trace "p" outC6) =
      Except.ok ⟨0, "Trace deviated from expected sequence: extra ."⟩ := by
  decide

/-- C6 amended. An invocation with a missing or empty name is excluded
from the `tools_called` list handed to the Tool-Selection Scorer (every
entry of that list has a non-empty name), but the trace judged by the
Step-Efficiency Scorer keeps one child per reported invocation — empty or
missing names included — in reported order. -/
theorem empty_name_amended (p : String) (out : AgentOutput) :
    ((tools_called_of out).all (fun t => !(t.name == "")) = true) ∧
    ((build_trace p out).children.map TraceChild.name =
      out.toolCalls.map RawToolCall.name) := by
  constructor
  · rw [List.all_eq_true]
    intro t ht
    simp only [tools_called_of, List.mem_map, List.mem_filter] at ht
    obtain ⟨call, ⟨_, htruthy⟩, rfl⟩ := ht
    cases hname : call.name with
    | none =>
      rw [hname] at htruthy
      exact absurd htruthy (by decide)
    | some s =>
      rw [hname] at htruthy
      simpa [hname, truthy_name] using htruthy
  · simp only [build_trace, List.map_map]
    rfl

/-! ## C9: tool-result lookup is by name, last write wins -/

/-- C9. In the trace built from an agent output, every child's `output` is
the result of the *last* `toolResults` entry whose `toolName` equals the
child's name (`lastResultFor`), and `none` when no entry bears that name —
so duplicate invocations of one tool all receive the same, latest result. -/
theorem build_trace_last_write_wins (prompt : String) (out : AgentOutput) :
    (build_trace prompt out).children.map TraceChild.output =
      out.toolCalls.map (fun call => lastResultFor out.toolResults call.name) := by
  have hfun : ∀ k, (tool_results_by_name out.toolResults k).join =
      lastResultFor out.toolResults k := by
    intro k
    rw [tool_results_by_name_spec]
    cases h : (out.toolResults.filter (fun r => r.toolName == k)).getLast? with
    | none => simp [lastResultFor, h]
    | some r => simp [lastResultFor, h]
  simp only [build_trace, List.map_map, Function.comp]
  simp only [hfun]
  rfl

/-! ## C7: stage transition contract and the 10-stage full run -/

/-- C7. Every one of the ten reference stages satisfies the transition
contract (appends exactly one planned tool call and one artifact,
increments `step` by one, preserves `prompt` and all prior entries); and a
full run from a fresh state ends with `step = 10` and exactly the ten
artifacts and ten planned calls, in stage-execution order. -/
theorem pipeline_stage_contract :
    StageContract _dataset_stage ∧ StageContract _metadata_stage ∧
    StageContract _verify_raw_stage ∧ StageContract _verify_metadata_stage ∧
    StageContract _summary_stage ∧ StageContract _rag_stage ∧
    StageContract _rag_capture_stage ∧ StageContract _rag_verify_stage ∧
    StageContract _report_stage ∧ StageContract _final_stage ∧
    ∀ (prompt : String) (context : List (String × String)),
      (invoke_graph (initial_state prompt context)).step = 10 ∧
      (invoke_graph (initial_state prompt context)).artifacts =
        reference_artifacts ∧
      (invoke_graph (initial_state prompt context)).tools_planned =
        reference_plan := by
  refine ⟨?_, ?_, ?_, ?_, ?_, ?_, ?_, ?_, ?_, ?_, ?_⟩
  · intro s; exact ⟨_, _, rfl, rfl, rfl, rfl⟩
  · intro s; exact ⟨_, _, rfl, rfl, rfl, rfl⟩
  · intro s; exact ⟨_, _, rfl, rfl, rfl, rfl⟩
  · intro s; exact ⟨_, _, rfl, rfl, rfl, rfl⟩
  · intro s; exact ⟨_, _, rfl, rfl, rfl, rfl⟩
  · intro s; exact ⟨_, _, rfl, rfl, rfl, rfl⟩
  · intro s; exact ⟨_, _, rfl, rfl, rfl, rfl⟩
  · intro s; exact ⟨_, _, rfl, rfl, rfl, rfl⟩
  · intro s; exact ⟨_, _, rfl, rfl, rfl, rfl⟩
  · intro s; exact ⟨_, _, rfl, rfl, rfl, rfl⟩
  · intro prompt context; exact ⟨rfl, rfl, rfl⟩

/-! ## C8: idempotence of the pipeline -/

/-- C8. Two runs of the workflow pipeline on the identical
`(prompt, context)` pair produce identical `artifacts` and `plan` lists:
the output is a deterministic function of the input (the embedding of
`run_langraph_pipeline` is a pure function; the source contains no
randomness or time-dependent content). -/
theorem pipeline_idempotent (p1 : String) (c1 : List (String × String))
    (p2 : String) (c2 : List (String × String))
    (hp : p1 = p2) (hc : c1 = c2) :
    (run_langraph_pipeline p1 c1).artifacts =
      (run_langraph_pipeline p2 c2).artifacts ∧
    (run_langraph_pipeline p1 c1).plan = (run_langraph_pipeline p2 c2).plan := by
  subst hp
  subst hc
  exact ⟨rfl, rfl⟩

/-- Witness for C8 at a concrete prompt and context. -/
theorem pipeline_idempotent_witness :
    ("build a dataset" : String) = "build a dataset" ∧
    ([("key", "value")] : List (String × String)) = [("key", "value")] ∧
    ((run_langraph_pipeline "build a dataset" [("key", "value")]).artifacts =
      (run_langraph_pipeline "build a dataset" [("key", "value")]).artifacts ∧
     (run_langraph_pipeline "build a dataset" [("key", "value")]).plan =
      (run_langraph_pipeline "build a dataset" [("key", "value")]).plan) :=
  ⟨rfl, rfl,
   pipeline_idempotent "build a dataset" [("key", "value")]
     "build a dataset" [("key", "value")] rfl rfl⟩

/-! ## C10: the plan and artifacts are constants -/

/-- C10. Any two invocations of the pipeline — with arbitrary, possibly
different prompts and contexts — produce the same `artifacts` list and the
same `plan` list; the inputs influence only the echoed `prompt` field of
the result. -/
theorem pipeline_constant_output (p1 : String) (c1 : List (String × String))
    (p2 : String) (c2 : List (String × String)) :
    (run_langraph_pipeline p1 c1).artifacts =
      (run_langraph_pipeline p2 c2).artifacts ∧
    (run_langraph_pipeline p1 c1).plan = (run_langraph_pipeline p2 c2).plan ∧
    (run_langraph_pipeline p1 c1).prompt = p1 :=
  ⟨rfl, rfl, rfl⟩
